import Mathlib

/-!
Shallow embedding of the sgsu_studentclassroom_backend core:
contest registration (backend/controllers/contest.js), payment
reconciliation (backend/controllers/payment.js), notification store
(backend/controllers/notification.js, backend/models/Notification.js)
and the user-deletion cascade (backend/controllers/user.js), over the
mongoose schemas in backend/models.

Mongoose ObjectIds of users are modelled as `String`; documents
(contests, payments, notifications, blogs) carry `Nat` ids allocated
from counters in the store state.  Wall-clock instants (`Date`) are
modelled as `Int` millisecond timestamps, matching JavaScript's
numeric coercion of `Date` comparisons.  The Razorpay HMAC-SHA256 is
kept abstract: operations that recompute a signature take the keyed
hash as an explicit function parameter `hmac : String → String → String`
(key, message), mirroring the spec's treatment of signature
cryptography as an opaque sign/verify contract.
-/

namespace SGSU

/-- Payment.status enum: ['pending', 'completed', 'failed', 'refunded']
(backend/models/Payment.js). -/
inductive PayStatus
  | pending
  | completed
  | failed
  | refunded
deriving DecidableEq, Repr

/-- Participant paymentStatus enum: ['pending', 'completed', 'failed']
(ContestSchema.participants in backend/models/Contest.js). -/
inductive PartStatus
  | pending
  | completed
  | failed
deriving DecidableEq, Repr

/-- Contest.status enum: ['upcoming', 'ongoing', 'completed', 'cancelled']. -/
inductive ContestStatus
  | upcoming
  | ongoing
  | completed
  | cancelled
deriving DecidableEq, Repr

/-- An embedded participant subdocument of a contest. -/
structure Participant where
  user : String
  registeredAt : Int
  paymentStatus : PartStatus
  paymentId : Option Nat
deriving DecidableEq, Repr

/-- A Contest document (backend/models/Contest.js), restricted to the
fields the registration and payment workflows read or write. -/
structure Contest where
  id : Nat
  registrationDeadline : Int
  entryFee : Int
  maxParticipants : Option Int
  status : ContestStatus
  participants : List Participant
deriving DecidableEq, Repr

/-- A Payment document (backend/models/Payment.js). -/
structure Payment where
  id : Nat
  user : String
  amount : Int
  purpose : String
  relatedTo : Option Nat
  relatedModel : Option String
  status : PayStatus
  razorpayPaymentId : Option String
  razorpayOrderId : Option String
  razorpaySignature : Option String
deriving DecidableEq, Repr

/-- A Notification document (backend/models/Notification.js).  The
`isRead` map-of-Boolean is an association list keyed by user id. -/
structure Notification where
  id : Nat
  title : String
  message : String
  sender : String
  recipients : String
  targetUsers : List String
  urgencyLevel : String
  relatedTo : String
  relatedId : Option Nat
  notificationType : Option String
  isRead : List (String × Bool)
deriving DecidableEq, Repr

/-- A User document, restricted to the fields the core reads. -/
structure User where
  id : String
  role : String
  contests : List Nat
deriving DecidableEq, Repr

/-- A Blog document, restricted to what the deletion cascade needs. -/
structure Blog where
  id : Nat
  author : String
deriving DecidableEq, Repr

/-- The document store: one collection per model plus id counters for
freshly inserted documents. -/
structure St where
  users : List User
  contests : List Contest
  payments : List Payment
  notifications : List Notification
  blogs : List Blog
  nextPaymentId : Nat
  nextNotificationId : Nat
deriving DecidableEq, Repr

/-- Model.findById for contests. -/
def findContest (cs : List Contest) (cid : Nat) : Option Contest :=
  cs.find? (fun c => c.id = cid)

/-- Model.findById for payments. -/
def findPayment (ps : List Payment) (pid : Nat) : Option Payment :=
  ps.find? (fun p => p.id = pid)

/-- Model.findById for notifications. -/
def findNotification (ns : List Notification) (nid : Nat) : Option Notification :=
  ns.find? (fun n => n.id = nid)

/-- Saving a fetched-and-mutated contest document: replace by id. -/
def updateContestById (cs : List Contest) (cid : Nat) (c' : Contest) : List Contest :=
  cs.map (fun c => if c.id = cid then c' else c)

/-- Saving a fetched-and-mutated payment document: replace by id. -/
def updatePaymentById (ps : List Payment) (pid : Nat) (p' : Payment) : List Payment :=
  ps.map (fun p => if p.id = pid then p' else p)

/-- Saving a fetched-and-mutated notification document: replace by id. -/
def updateNotificationById (ns : List Notification) (nid : Nat) (n' : Notification) :
    List Notification :=
  ns.map (fun n => if n.id = nid then n' else n)

/-- User.findByIdAndUpdate(uid, \x7b $push: \x7b contests: cid \x7d \x7d). -/
def pushUserContest (us : List User) (uid : String) (cid : Nat) : List User :=
  us.map (fun u => if u.id = uid then { u with contests := u.contests ++ [cid] } else u)

/-- User.find(\x7b role: 'student' \x7d).select('_id'): snapshot of student ids. -/
def studentIds (us : List User) : List String :=
  (us.filter (fun u => u.role = "student")).map (fun u => u.id)

/-- ContestSchema.virtual('isRegistrationOpen'):
`now <= this.registrationDeadline && this.status !== 'cancelled'`. -/
def isRegistrationOpen (now : Int) (c : Contest) : Bool :=
  now ≤ c.registrationDeadline && c.status ≠ ContestStatus.cancelled

/-- ContestSchema.methods.isFull:
`if (!this.maxParticipants) return false;
 return this.participants.length >= this.maxParticipants;`
JavaScript treats both `null` and `0` as falsy. -/
def Contest.isFull (c : Contest) : Bool :=
  match c.maxParticipants with
  | none => false
  | some m => if m = 0 then false else (c.participants.length : Int) ≥ m

/-- Typed outcomes of the embedded operations, mirroring the error
responses the controllers return. -/
inductive ApiError
  | notFound
  | registrationClosed
  | full
  | alreadyRegistered
  | invalidSignature
  | invalidSpec
  | forbidden
  | cannotDeleteSelf
deriving DecidableEq, Repr

/-- Result of registerForContest: mirrors the JSON body
(paymentRequired, paymentStatus, optional payment id). -/
inductive RegResult
  | err (e : ApiError)
  | ok (paymentRequired : Bool) (paymentStatus : PartStatus) (paymentId : Option Nat)
deriving DecidableEq, Repr

/-- registerForContest (contest controller, src/unnamed/part_000
lines 279-357): find the contest, reject when registration is closed,
full, or the caller is already a participant; otherwise create a
pending Payment when entryFee > 0, append the participant, and push the
contest onto the caller's contest list. -/
def registerForContest (now : Int) (s : St) (cid : Nat) (caller : String) :
    RegResult × St :=
  match findContest s.contests cid with
  | none => (RegResult.err ApiError.notFound, s)
  | some c =>
    if !(isRegistrationOpen now c) then
      (RegResult.err ApiError.registrationClosed, s)
    else if c.isFull then
      (RegResult.err ApiError.full, s)
    else if c.participants.any (fun p => p.user = caller) then
      (RegResult.err ApiError.alreadyRegistered, s)
    else if c.entryFee > 0 then
      let pid := s.nextPaymentId
      let pay : Payment :=
        { id := pid, user := caller, amount := c.entryFee, purpose := "contest",
          relatedTo := some c.id, relatedModel := some "Contest",
          status := PayStatus.pending, razorpayPaymentId := none,
          razorpayOrderId := none, razorpaySignature := none }
      let part : Participant :=
        { user := caller, registeredAt := now,
          paymentStatus := PartStatus.pending, paymentId := some pid }
      let c' := { c with participants := c.participants ++ [part] }
      (RegResult.ok true PartStatus.pending (some pid),
       { s with payments := s.payments ++ [pay],
                contests := updateContestById s.contests cid c',
                users := pushUserContest s.users caller cid,
                nextPaymentId := pid + 1 })
    else
      let part : Participant :=
        { user := caller, registeredAt := now,
          paymentStatus := PartStatus.completed, paymentId := none }
      let c' := { c with participants := c.participants ++ [part] }
      (RegResult.ok false PartStatus.completed none,
       { s with contests := updateContestById s.contests cid c',
                users := pushUserContest s.users caller cid })

/-- Modify the element of a list at a given index, the embedding of an
in-place update of `contest.participants[participantIndex]`. -/
def modifyAt (l : List α) (i : Nat) (f : α → α) : List α :=
  match l, i with
  | [], _ => []
  | a :: t, 0 => f a :: t
  | a :: t, i + 1 => a :: modifyAt t i f

/-- Result of verifyPayment: mirrors the controller's responses. -/
inductive VerifyResult
  | err (e : ApiError)
  | ok (paymentId : Nat) (status : PayStatus)
deriving DecidableEq, Repr

/-- verifyPayment (backend/controllers/payment.js lines 105-189):
recompute the expected signature over `orderId|paymentId` with the
shared secret and the keyed hash `hmac`; reject on mismatch before any
store access; otherwise load the payment, mark it completed with the
provider correlation ids, update the matching contest participant
(matched by the calling principal's id) when this was a contest
payment, and persist a self-addressed success Notification. -/
def verifyPayment (hmac : String → String → String) (secret : String) (s : St)
    (caller rzpPaymentId rzpOrderId rzpSignature : String) (paymentId : Nat) :
    VerifyResult × St :=
  let generatedSignature := hmac secret (rzpOrderId ++ "|" ++ rzpPaymentId)
  if generatedSignature ≠ rzpSignature then
    (VerifyResult.err ApiError.invalidSignature, s)
  else
    match findPayment s.payments paymentId with
    | none => (VerifyResult.err ApiError.notFound, s)
    | some p =>
      let p' := { p with razorpayPaymentId := some rzpPaymentId,
                         razorpaySignature := some rzpSignature,
                         status := PayStatus.completed }
      let s1 := { s with payments := updatePaymentById s.payments paymentId p' }
      let s2 :=
        if p.purpose = "contest" && p.relatedModel = some "Contest" then
          match p.relatedTo with
          | none => s1
          | some cid =>
            match findContest s1.contests cid with
            | none => s1
            | some contest =>
              match contest.participants.findIdx? (fun q => q.user = caller) with
              | none => s1
              | some i =>
                let contest' :=
                  { contest with
                      participants := modifyAt contest.participants i
                        (fun q => { q with paymentStatus := PartStatus.completed,
                                           paymentId := some p.id }) }
                { s1 with contests := updateContestById s1.contests contest.id contest' }
        else s1
      let notif : Notification :=
        { id := s2.nextNotificationId,
          title := "Payment Successful",
          message := "Your payment of ₹" ++ toString p.amount ++ " for " ++ p.purpose
            ++ " has been processed successfully.",
          sender := caller,
          recipients := "specific",
          targetUsers := [caller],
          urgencyLevel := "important",
          relatedTo := "payment",
          relatedId := some p.id,
          notificationType := some "Payment",
          isRead := [] }
      let s3 := { s2 with notifications := s2.notifications ++ [notif],
                          nextNotificationId := s2.nextNotificationId + 1 }
      (VerifyResult.ok p.id PayStatus.completed, s3)

/-- The request body of POST /api/notifications as the controller and
the route validators see it; absent fields are `none`. -/
structure NotifReq where
  title : Option String
  message : Option String
  recipients : Option String
  targetUsers : Option (List String)
  urgencyLevel : Option String
  relatedTo : Option String
  relatedId : Option Nat
deriving DecidableEq, Repr

/-- JavaScript truthiness of an optional string field: present and
non-empty. -/
def truthyStr (o : Option String) : Bool :=
  match o with
  | some t => t ≠ ""
  | none => false

/-- The express-validator chain on POST /api/notifications
(backend/routes/notifications.js): title and message non-empty,
recipients ∈ \x7ball, specific\x7d, and — exactly when recipients is
"specific" — targetUsers an existing non-empty array; urgencyLevel,
when present, in its enum.  The controller turns any validation error
into a 400 before touching the store. -/
def validNotifReq (req : NotifReq) : Bool :=
  truthyStr req.title &&
  truthyStr req.message &&
  (match req.recipients with
   | some r => r = "all" || r = "specific"
   | none => false) &&
  (if req.recipients = some "specific" then
     match req.targetUsers with
     | some l => !l.isEmpty
     | none => false
   else true) &&
  (match req.urgencyLevel with
   | some u => u = "info" || u = "important" || u = "urgent"
   | none => true)

/-- Result of createNotification. -/
inductive CreateNotifResult
  | err (e : ApiError)
  | ok (n : Notification)
deriving DecidableEq, Repr

/-- The notificationType switch of createNotification. -/
def notifTypeFor (rt : String) : Option String :=
  if rt = "blog" then some "Blog"
  else if rt = "contest" then some "Contest"
  else if rt = "payment" then some "Payment"
  else none

/-- The controller's recipients test:
`recipients === 'specific' && targetUsers && targetUsers.length > 0`. -/
def wantsSpecific (req : NotifReq) : Bool :=
  req.recipients = some "specific" &&
    (match req.targetUsers with
     | some l => decide (l.length > 0)
     | none => false)

/-- The Notification document createNotification assembles before
saving (backend/controllers/notification.js lines 18-59): on
"specific" with a non-empty target list keep the explicit list;
otherwise fall back to "all" and expand the target list to the current
students; resolve the polymorphic relation tag. -/
def builtNotification (s : St) (caller : String) (req : NotifReq) : Notification :=
  let urgency := if truthyStr req.urgencyLevel then req.urgencyLevel.getD "" else "info"
  let rt := if truthyStr req.relatedTo then req.relatedTo.getD "" else "general"
  let withRel := truthyStr req.relatedTo && rt ≠ "general" && req.relatedId.isSome
  { id := s.nextNotificationId,
    title := req.title.getD "",
    message := req.message.getD "",
    sender := caller,
    recipients := if wantsSpecific req then "specific" else "all",
    targetUsers := if wantsSpecific req then req.targetUsers.getD [] else studentIds s.users,
    urgencyLevel := urgency,
    relatedTo := rt,
    relatedId := if withRel then req.relatedId else none,
    notificationType := if withRel then notifTypeFor rt else none,
    isRead := [] }

/-- createNotification (backend/controllers/notification.js lines
8-80, behind the route validators of backend/routes/notifications.js):
reject on validation errors, otherwise persist the assembled record. -/
def createNotification (s : St) (caller : String) (req : NotifReq) :
    CreateNotifResult × St :=
  if !validNotifReq req then
    (CreateNotifResult.err ApiError.invalidSpec, s)
  else
    let notif := builtNotification s caller req
    (CreateNotifResult.ok notif,
     { s with notifications := s.notifications ++ [notif],
              nextNotificationId := s.nextNotificationId + 1 })

/-- Overwriting one entry of the isRead association list with true. -/
def overwriteKey (k : String) (kv : String × Bool) : String × Bool :=
  if kv.1 = k then (k, true) else kv

/-- Map.set on the isRead association list: overwrite the entry when
the key is present, else append it. -/
def setRead (m : List (String × Bool)) (k : String) : List (String × Bool) :=
  if m.any (fun kv => kv.1 = k) then m.map (overwriteKey k) else m ++ [(k, true)]

/-- NotificationSchema.methods.markAsRead (backend/models/
Notification.js): `this.isRead.set(userId.toString(), true)`. -/
def Notification.markAsReadDoc (n : Notification) (userId : String) : Notification :=
  { n with isRead := setRead n.isRead userId }

/-- NotificationSchema.methods.isReadByUser:
`this.isRead.get(userId.toString()) || false`. -/
def Notification.isReadByUser (n : Notification) (userId : String) : Bool :=
  match n.isRead.find? (fun kv => kv.1 = userId) with
  | some kv => kv.2
  | none => false

/-- Result of the markAsRead controller. -/
inductive MarkReadResult
  | err (e : ApiError)
  | ok
deriving DecidableEq, Repr

/-- markAsRead (backend/controllers/notification.js lines 135-156):
404 when the record is absent, 403 when the caller is not among the
record's targetUsers, else set the caller's read flag and save. -/
def markAsRead (s : St) (caller : String) (nid : Nat) : MarkReadResult × St :=
  match findNotification s.notifications nid with
  | none => (MarkReadResult.err ApiError.notFound, s)
  | some n =>
    if !(n.targetUsers.any (fun u => u = caller)) then
      (MarkReadResult.err ApiError.forbidden, s)
    else
      (MarkReadResult.ok,
       { s with notifications :=
           updateNotificationById s.notifications nid (n.markAsReadDoc caller) })

/-- Result of deleteUser. -/
inductive DeleteUserResult
  | err (e : ApiError)
  | ok
deriving DecidableEq, Repr

/-- deleteUser (backend/controllers/user.js lines 180-218): 404 when
the user is absent, 400 on self-deletion; otherwise delete the user's
blogs, pull the user from every contest's participants, deleteMany
every Notification whose sender is the user or whose targetUsers
contains the user, and finally delete the user document. -/
def deleteUser (s : St) (caller : String) (uid : String) : DeleteUserResult × St :=
  match s.users.find? (fun u => u.id = uid) with
  | none => (DeleteUserResult.err ApiError.notFound, s)
  | some u =>
    if u.id = caller then
      (DeleteUserResult.err ApiError.cannotDeleteSelf, s)
    else
      (DeleteUserResult.ok,
       { s with
           blogs := s.blogs.filter (fun b => !(b.author = u.id)),
           contests := s.contests.map (fun c =>
             { c with participants := c.participants.filter (fun p => !(p.user = u.id)) }),
           notifications := s.notifications.filter (fun n =>
             !(n.sender = u.id || n.targetUsers.contains u.id)),
           users := s.users.filter (fun v => !(v.id = u.id)) })

/-! Concrete stores and requests used by the witness theorems. -/

/-- An empty document store. -/
def emptySt : St :=
  { users := [], contests := [], payments := [], notifications := [], blogs := [],
    nextPaymentId := 0, nextNotificationId := 0 }

/-- A paid contest (entryFee 50, deadline at t = 100) with no
participants, in a store with two students and one admin. -/
def sampleSt : St :=
  { users := [⟨"a", "student", []⟩, ⟨"b", "student", []⟩, ⟨"adm", "admin", []⟩],
    contests := [⟨7, 100, 50, none, ContestStatus.upcoming, []⟩],
    payments := [], notifications := [], blogs := [],
    nextPaymentId := 0, nextNotificationId := 0 }

/-- A contest with maxParticipants = 0 and three participants already
present. -/
def zeroCapSt : St :=
  { users := [⟨"a", "student", []⟩, ⟨"b", "student", []⟩, ⟨"d", "student", []⟩],
    contests := [⟨7, 100, 0, some 0, ContestStatus.upcoming,
      [⟨"x", 1, PartStatus.completed, none⟩, ⟨"y", 2, PartStatus.completed, none⟩,
       ⟨"z", 3, PartStatus.completed, none⟩]⟩],
    payments := [], notifications := [], blogs := [],
    nextPaymentId := 0, nextNotificationId := 0 }

/-- C1: a verifyPayment call whose provided signature differs from the
keyed hash of `orderId|paymentId` under the shared secret fails with
InvalidSignature and returns the store untouched: no Payment field, no
participant entry and no Notification changes, whatever the rest of
the payload holds. -/
theorem verifyPayment_forged_signature_no_mutation
    (hmac : String → String → String) (secret : String) (s : St)
    (caller rp ro sig : String) (pid : Nat)
    (h : hmac secret (ro ++ "|" ++ rp) ≠ sig) :
    verifyPayment hmac secret s caller rp ro sig pid
      = (VerifyResult.err ApiError.invalidSignature, s) := by
  simp [verifyPayment, h]

/-- Witness for C1 at a concrete forged signature. -/
theorem verifyPayment_forged_signature_no_mutation_witness :
    verifyPayment (fun k m => k ++ "#" ++ m) "sec" sampleSt "a" "p" "o" "forged" 0
      = (VerifyResult.err ApiError.invalidSignature, sampleSt) :=
  verifyPayment_forged_signature_no_mutation _ _ _ _ _ _ _ _ (by decide)

/-- C7: registering for a contest whose registrationDeadline lies
strictly in the past fails with RegistrationClosed for every caller
and every contest state — the maxParticipants bound (set or unset) is
never consulted — and the store, in particular the participants list
and the Payment collection, is returned unchanged. -/
theorem register_past_deadline_closed
    (now : Int) (s : St) (cid : Nat) (caller : String) (c : Contest)
    (hc : findContest s.contests cid = some c)
    (hpast : c.registrationDeadline < now) :
    registerForContest now s cid caller = (RegResult.err ApiError.registrationClosed, s) := by
  have hlt : ¬(now ≤ c.registrationDeadline) := not_le.mpr hpast
  simp [registerForContest, hc, isRegistrationOpen, hlt]

/-- Witness for C7: the sample contest's deadline (100) is past at
t = 101. -/
theorem register_past_deadline_closed_witness :
    registerForContest 101 sampleSt 7 "a"
      = (RegResult.err ApiError.registrationClosed, sampleSt) :=
  register_past_deadline_closed 101 sampleSt 7 "a"
    ⟨7, 100, 50, none, ContestStatus.upcoming, []⟩ (by decide) (by decide)

/-- C10: maxParticipants = 0 means unbounded, not zero-capacity:
isFull is false whenever maxParticipants is 0 or null, and register on
such a contest never fails Full, however many participants it already
has. -/
theorem maxParticipants_zero_unbounded
    (now : Int) (s : St) (cid : Nat) (caller : String) (c : Contest)
    (hc : findContest s.contests cid = some c)
    (hmax : c.maxParticipants = some 0 ∨ c.maxParticipants = none) :
    c.isFull = false ∧ (registerForContest now s cid caller).1 ≠ RegResult.err ApiError.full := by
  have hfull : c.isFull = false := by
    rcases hmax with h | h <;> simp [Contest.isFull, h]
  refine ⟨hfull, ?_⟩
  simp only [registerForContest, hc, hfull]
  split
  · simp
  · split
    · simp_all
    · split
      · simp
      · split <;> simp

/-- Witness for C10 on a contest with maxParticipants = 0 and three
participants already registered. -/
theorem maxParticipants_zero_unbounded_witness :
    Contest.isFull ⟨7, 100, 0, some 0, ContestStatus.upcoming,
      [⟨"x", 1, PartStatus.completed, none⟩, ⟨"y", 2, PartStatus.completed, none⟩,
       ⟨"z", 3, PartStatus.completed, none⟩]⟩ = false ∧
    (registerForContest 90 zeroCapSt 7 "a").1 ≠ RegResult.err ApiError.full :=
  maxParticipants_zero_unbounded 90 zeroCapSt 7 "a" _ (by rfl) (Or.inl rfl)

/-- C4: createNotification with recipients mode "specific" and an
empty or absent explicit target list fails with InvalidSpec (the route
validators reject it and the controller returns the 400 before any
store access), and no Notification record is persisted. -/
theorem createNotification_specific_empty_fails
    (s : St) (caller : String) (req : NotifReq)
    (hrec : req.recipients = some "specific")
    (htgt : req.targetUsers = none ∨ req.targetUsers = some []) :
    createNotification s caller req = (CreateNotifResult.err ApiError.invalidSpec, s) := by
  have hval : validNotifReq req = false := by
    rcases htgt with h | h <;> simp [validNotifReq, hrec, h]
  simp [createNotification, hval]

/-- Witness for C4 with an empty explicit target list. -/
theorem createNotification_specific_empty_fails_witness :
    createNotification sampleSt "adm"
        ⟨some "T", some "M", some "specific", some [], none, none, none⟩
      = (CreateNotifResult.err ApiError.invalidSpec, sampleSt) :=
  createNotification_specific_empty_fails sampleSt "adm" _ rfl (Or.inr rfl)

/-- C3: on a successful registration, entryFee = 0 creates no Payment
and appends the caller with paymentStatus completed and no payment id,
while entryFee > 0 creates exactly one new Payment — pending,
correlated to this contest and this caller — and appends the caller
with paymentStatus pending carrying the new payment's id. -/
theorem register_payment_creation
    (now : Int) (s : St) (cid : Nat) (caller : String) (c : Contest)
    (hc : findContest s.contests cid = some c)
    (hopen : isRegistrationOpen now c = true)
    (hfull : c.isFull = false)
    (hreg : c.participants.any (fun p => p.user = caller) = false) :
    (c.entryFee ≤ 0 →
      registerForContest now s cid caller
        = (RegResult.ok false PartStatus.completed none,
           { s with
               contests := updateContestById s.contests cid
                 { c with participants := c.participants ++
                     [⟨caller, now, PartStatus.completed, none⟩] },
               users := pushUserContest s.users caller cid })) ∧
    (c.entryFee > 0 →
      registerForContest now s cid caller
        = (RegResult.ok true PartStatus.pending (some s.nextPaymentId),
           { s with
               payments := s.payments ++
                 [{ id := s.nextPaymentId, user := caller, amount := c.entryFee,
                    purpose := "contest", relatedTo := some c.id,
                    relatedModel := some "Contest", status := PayStatus.pending,
                    razorpayPaymentId := none, razorpayOrderId := none,
                    razorpaySignature := none }],
               contests := updateContestById s.contests cid
                 { c with participants := c.participants ++
                     [⟨caller, now, PartStatus.pending, some s.nextPaymentId⟩] },
               users := pushUserContest s.users caller cid,
               nextPaymentId := s.nextPaymentId + 1 })) := by
  constructor
  · intro hfee
    have hfee' : ¬(0 < c.entryFee) := not_lt.mpr hfee
    simp [registerForContest, hc, hopen, hfull, hreg, hfee']
  · intro hfee
    simp [registerForContest, hc, hopen, hfull, hreg, hfee]

/-- Witness for C3 on the sample paid contest (entryFee 50). -/
theorem register_payment_creation_witness :
    ((50 : Int) ≤ 0 →
      registerForContest 90 sampleSt 7 "a"
        = (RegResult.ok false PartStatus.completed none,
           { sampleSt with
               contests := updateContestById sampleSt.contests 7
                 { (⟨7, 100, 50, none, ContestStatus.upcoming, []⟩ : Contest) with
                     participants := [⟨"a", 90, PartStatus.completed, none⟩] },
               users := pushUserContest sampleSt.users "a" 7 })) ∧
    ((50 : Int) > 0 →
      registerForContest 90 sampleSt 7 "a"
        = (RegResult.ok true PartStatus.pending (some 0),
           { sampleSt with
               payments := [{ id := 0, user := "a", amount := 50,
                              purpose := "contest", relatedTo := some 7,
                              relatedModel := some "Contest", status := PayStatus.pending,
                              razorpayPaymentId := none, razorpayOrderId := none,
                              razorpaySignature := none }],
               contests := updateContestById sampleSt.contests 7
                 { (⟨7, 100, 50, none, ContestStatus.upcoming, []⟩ : Contest) with
                     participants := [⟨"a", 90, PartStatus.pending, some 0⟩] },
               users := pushUserContest sampleSt.users "a" 7,
               nextPaymentId := 1 })) :=
  register_payment_creation 90 sampleSt 7 "a" _ (by rfl) (by decide) (by decide) (by decide)

/-- The admin-only store and an "all"-mode request used against C5. -/
def adminOnlySt : St :=
  { users := [⟨"adm", "admin", []⟩],
    contests := [], payments := [], notifications := [], blogs := [],
    nextPaymentId := 0, nextNotificationId := 0 }

/-- A well-formed broadcast request. -/
def reqAll : NotifReq :=
  ⟨some "T", some "M", some "all", none, none, none, none⟩

/-- C5 counterexample: in a store holding no principals with role
student, createNotification with recipients mode "all" succeeds and
persists a Notification whose targetUsers list is empty — refuting the
claim that targetUsers is non-empty immediately after create for every
state of the user store. -/
theorem createNotification_all_no_students_empty_targets :
    (createNotification adminOnlySt "adm" reqAll).1
        = CreateNotifResult.ok (builtNotification adminOnlySt "adm" reqAll) ∧
    (createNotification adminOnlySt "adm" reqAll).2.notifications.map
        (fun n => n.targetUsers) = [[]] := by
  constructor <;> rfl

/-- C5 amended: after a successful create the persisted record is
exactly the assembled one; its targetUsers list is non-empty whenever
its recipients mode is "specific", and in "all" mode it equals the
call-time snapshot of student ids — which is empty exactly when no
students exist. -/
theorem createNotification_target_resolution
    (s : St) (caller : String) (req : NotifReq)
    (hv : validNotifReq req = true) :
    (createNotification s caller req).2.notifications
        = s.notifications ++ [builtNotification s caller req] ∧
    ((builtNotification s caller req).recipients = "specific" →
        (builtNotification s caller req).targetUsers ≠ []) ∧
    ((builtNotification s caller req).recipients = "all" →
        (builtNotification s caller req).targetUsers = studentIds s.users) := by
  refine ⟨by simp [createNotification, hv], ?_, ?_⟩
  · intro hmode
    cases hw : wantsSpecific req with
    | false => simp [builtNotification, hw] at hmode
    | true =>
      have hw' := hw
      simp only [wantsSpecific, Bool.and_eq_true] at hw'
      rcases hw' with ⟨-, hlen⟩
      cases htu : req.targetUsers with
      | none => rw [htu] at hlen; simp at hlen
      | some l =>
        rw [htu] at hlen
        simp only [decide_eq_true_eq] at hlen
        simp only [builtNotification, hw, if_true, htu, Option.getD_some, ne_eq]
        intro hl
        rw [hl] at hlen
        simp at hlen
  · intro hmode
    cases hw : wantsSpecific req with
    | true => simp [builtNotification, hw] at hmode
    | false => simp [builtNotification, hw]

/-- Witness for the amended C5 on a store with two students. -/
theorem createNotification_target_resolution_witness :
    (createNotification sampleSt "adm" reqAll).2.notifications
        = sampleSt.notifications ++ [builtNotification sampleSt "adm" reqAll] ∧
    ((builtNotification sampleSt "adm" reqAll).recipients = "specific" →
        (builtNotification sampleSt "adm" reqAll).targetUsers ≠ []) ∧
    ((builtNotification sampleSt "adm" reqAll).recipients = "all" →
        (builtNotification sampleSt "adm" reqAll).targetUsers = studentIds sampleSt.users) :=
  createNotification_target_resolution sampleSt "adm" reqAll (by decide)

/-- A store holding a refunded payment (id 1). -/
def refundedSt : St :=
  { users := [⟨"u", "student", []⟩],
    contests := [], blogs := [], notifications := [],
    payments := [{ id := 1, user := "u", amount := 10, purpose := "other",
                   relatedTo := none, relatedModel := none,
                   status := PayStatus.refunded, razorpayPaymentId := none,
                   razorpayOrderId := none, razorpaySignature := none }],
    nextPaymentId := 2, nextNotificationId := 0 }

/-- C2 counterexample: a Payment in the terminal state refunded is
moved back to completed by verifyPayment with a matching signature —
refuting the claim that no operation ever moves a payment out of a
terminal state. -/
theorem verifyPayment_exits_terminal_state :
    (findPayment refundedSt.payments 1).map (fun p => p.status)
        = some PayStatus.refunded ∧
    ((verifyPayment (fun k m => k ++ "#" ++ m) "sec" refundedSt "u" "p" "o" "sec#o|p" 1).2.payments.map
        (fun p => p.status)) = [PayStatus.completed] := by
  constructor <;> rfl

/-- C2 amended: verifyPayment with a matching signature on an existing
payment marks that payment completed regardless of its prior status —
pending, but also the terminal completed, failed and refunded — while
leaving every other payment record untouched; the code has no guard
protecting terminal states. -/
theorem verifyPayment_completes_unconditionally
    (hmac : String → String → String) (secret : String) (s : St)
    (caller rp ro sig : String) (pid : Nat) (p : Payment)
    (hsig : hmac secret (ro ++ "|" ++ rp) = sig)
    (hp : findPayment s.payments pid = some p) :
    (verifyPayment hmac secret s caller rp ro sig pid).1
        = VerifyResult.ok p.id PayStatus.completed ∧
    (verifyPayment hmac secret s caller rp ro sig pid).2.payments
        = updatePaymentById s.payments pid
            { p with razorpayPaymentId := some rp, razorpaySignature := some sig,
                     status := PayStatus.completed } := by
  simp only [verifyPayment, hsig, ne_eq, not_true_eq_false, if_false, hp]
  constructor
  · trivial
  · (repeat' split) <;> rfl

/-- Witness for the amended C2 on the refunded payment. -/
theorem verifyPayment_completes_unconditionally_witness :
    (verifyPayment (fun k m => k ++ "#" ++ m) "sec" refundedSt "u" "p" "o" "sec#o|p" 1).1
        = VerifyResult.ok 1 PayStatus.completed ∧
    (verifyPayment (fun k m => k ++ "#" ++ m) "sec" refundedSt "u" "p" "o" "sec#o|p" 1).2.payments
        = updatePaymentById refundedSt.payments 1
            { id := 1, user := "u", amount := 10, purpose := "other",
              relatedTo := none, relatedModel := none,
              status := PayStatus.completed, razorpayPaymentId := some "p",
              razorpayOrderId := none, razorpaySignature := some "sec#o|p" } :=
  verifyPayment_completes_unconditionally (fun k m => k ++ "#" ++ m) "sec" refundedSt
    "u" "p" "o" "sec#o|p" 1 _ (by rfl) (by rfl)

/-- A store with two notifications: record 0 targets both students,
record 1 targets only "b". -/
def cascadeSt : St :=
  { users := [⟨"a", "student", []⟩, ⟨"b", "student", []⟩, ⟨"adm", "admin", []⟩],
    contests := [], payments := [], blogs := [],
    notifications :=
      [⟨0, "T", "M", "adm", "specific", ["a", "b"], "info", "general", none, none, []⟩,
       ⟨1, "T2", "M2", "adm", "specific", ["b"], "info", "general", none, none, []⟩],
    nextPaymentId := 0, nextNotificationId := 2 }

/-- C6 counterexample: deleting principal "a" deletes notification 0
wholesale even though its target list still holds "b" — the code's
deleteMany removes every record that references the principal instead
of pruning the principal from target lists and purging only
sole-trace records. -/
theorem deleteUser_cascade_deletes_shared_record :
    cascadeSt.notifications.map (fun n => (n.id, n.targetUsers))
        = [(0, ["a", "b"]), (1, ["b"])] ∧
    (deleteUser cascadeSt "adm" "a").1 = DeleteUserResult.ok ∧
    (deleteUser cascadeSt "adm" "a").2.notifications.map (fun n => n.id) = [1] :=
  ⟨rfl, rfl, rfl⟩

/-- C6 amended: on a successful deleteUser the store keeps exactly the
Notification records that do not reference the deleted principal at
all — every record whose sender is the principal or whose target list
contains it is deleted wholesale, even when other targets remain; no
per-record target-list pruning happens. -/
theorem deleteUser_notification_cascade
    (s : St) (caller uid : String) (u : User)
    (hu : s.users.find? (fun v => v.id = uid) = some u)
    (hself : ¬(u.id = caller)) :
    (deleteUser s caller uid).1 = DeleteUserResult.ok ∧
    (deleteUser s caller uid).2.notifications
      = s.notifications.filter
          (fun n => !(n.sender = u.id || n.targetUsers.contains u.id)) := by
  simp [deleteUser, hu, hself]

/-- Witness for the amended C6 at the two-notification store. -/
theorem deleteUser_notification_cascade_witness :
    (deleteUser cascadeSt "adm" "a").1 = DeleteUserResult.ok ∧
    (deleteUser cascadeSt "adm" "a").2.notifications
      = cascadeSt.notifications.filter
          (fun n => !(n.sender = "a" || n.targetUsers.contains "a")) :=
  deleteUser_notification_cascade cascadeSt "adm" "a" ⟨"a", "student", []⟩ (by rfl) (by decide)

/-- find? after overwriting a present key yields (key, true). -/
theorem find_overwrite (m : List (String × Bool)) (k : String)
    (h : m.any (fun kv => kv.1 = k) = true) :
    (m.map (overwriteKey k)).find? (fun kv => kv.1 = k) = some (k, true) := by
  induction m with
  | nil => simp at h
  | cons a t ih =>
    by_cases ha : a.1 = k
    · simp [overwriteKey, ha]
    · have ht : t.any (fun kv => kv.1 = k) = true := by simpa [ha] using h
      simp only [List.map_cons, overwriteKey, if_neg ha]
      rw [List.find?_cons_of_neg _ (by simpa using ha)]
      exact ih ht

/-- find? after appending (key, true) to a key-free list yields
(key, true). -/
theorem find_appended (m : List (String × Bool)) (k : String)
    (h : ∀ x ∈ m, ¬(x.1 = k)) :
    (m ++ [(k, true)]).find? (fun kv => kv.1 = k) = some (k, true) := by
  induction m with
  | nil => simp
  | cons a t ih =>
    rw [List.cons_append, List.find?_cons_of_neg _ (by simpa using h a (by simp))]
    exact ih (fun x hx => h x (by simp [hx]))

/-- Looking up the key just written by setRead yields (key, true). -/
theorem setRead_find (m : List (String × Bool)) (k : String) :
    (setRead m k).find? (fun kv => kv.1 = k) = some (k, true) := by
  by_cases h : m.any (fun kv => kv.1 = k) = true
  · unfold setRead
    rw [if_pos h]
    exact find_overwrite m k h
  · unfold setRead
    rw [if_neg h]
    refine find_appended m k ?_
    intro x hx hk
    exact h (List.any_eq_true.mpr ⟨x, hx, by simpa using hk⟩)

/-- Writing the same read flag twice is the same as writing it once. -/
theorem setRead_idem (m : List (String × Bool)) (k : String) :
    setRead (setRead m k) k = setRead m k := by
  by_cases h : m.any (fun kv => kv.1 = k) = true
  · have e1 : setRead m k = m.map (overwriteKey k) := by
      unfold setRead
      rw [if_pos h]
    have h2 : ((m.map (overwriteKey k)).any (fun kv => kv.1 = k)) = true := by
      rcases List.any_eq_true.mp h with ⟨x, hx, hxk⟩
      refine List.any_eq_true.mpr ⟨overwriteKey k x, List.mem_map_of_mem _ hx, ?_⟩
      have hx1 : x.1 = k := by simpa using hxk
      simp [overwriteKey, hx1]
    rw [e1]
    unfold setRead
    rw [if_pos h2, List.map_map]
    refine List.map_congr_left (fun a _ => ?_)
    by_cases hak : a.1 = k <;> simp [overwriteKey, Function.comp, hak]
  · have hall : ∀ x ∈ m, ¬(x.1 = k) := fun x hx hk =>
      h (List.any_eq_true.mpr ⟨x, hx, by simpa using hk⟩)
    have e1 : setRead m k = m ++ [(k, true)] := by
      unfold setRead
      rw [if_neg h]
    have h2 : ((m ++ [(k, true)]).any (fun kv => kv.1 = k)) = true :=
      List.any_eq_true.mpr ⟨(k, true), List.mem_append_right _ (by simp), by simp⟩
    rw [e1]
    unfold setRead
    rw [if_pos h2, List.map_append]
    congr 1
    · calc m.map (overwriteKey k) = m.map id :=
            List.map_congr_left (fun a ha => by simp [overwriteKey, hall a ha])
      _ = m := List.map_id m
    · simp [overwriteKey]

/-- The document-level markAsRead leaves the read flag true. -/
theorem isReadByUser_after_mark (n : Notification) (u : String) :
    (n.markAsReadDoc u).isReadByUser u = true := by
  unfold Notification.markAsReadDoc Notification.isReadByUser
  simp [setRead_find]

/-- The document-level markAsRead is idempotent. -/
theorem markAsReadDoc_idem (n : Notification) (u : String) :
    (n.markAsReadDoc u).markAsReadDoc u = n.markAsReadDoc u := by
  unfold Notification.markAsReadDoc
  simp [setRead_idem]

/-- Replacing an id's document and looking it up again returns the
replacement, given the id resolved before the update. -/
theorem findNotification_update (l : List Notification) (nid : Nat) (n n' : Notification)
    (h : findNotification l nid = some n) (hid : n'.id = nid) :
    findNotification (updateNotificationById l nid n') nid = some n' := by
  induction l with
  | nil => simp [findNotification] at h
  | cons a t ih =>
    by_cases ha : a.id = nid
    · simp [findNotification, updateNotificationById, ha, hid]
    · unfold findNotification updateNotificationById at *
      simp only [List.map_cons, if_neg ha]
      rw [List.find?_cons_of_neg _ (by simpa using ha)]
      rw [List.find?_cons_of_neg _ (by simpa using ha)] at h
      exact ih h

/-- Updating the same id with the same document twice equals updating
once. -/
theorem updateNotificationById_idem (l : List Notification) (nid : Nat) (n' : Notification) :
    updateNotificationById (updateNotificationById l nid n') nid n'
      = updateNotificationById l nid n' := by
  unfold updateNotificationById
  rw [List.map_map]
  refine List.map_congr_left (fun a _ => ?_)
  by_cases h : a.id = nid <;> simp [h]

/-- C8: markRead is idempotent: when the record exists and the caller
is among its targets, the first call succeeds and leaves the caller's
read-map entry true, and a second identical call also succeeds,
leaves the entry true, and changes nothing beyond the state the first
call produced. -/
theorem markAsRead_idempotent (s : St) (caller : String) (nid : Nat) (n : Notification)
    (hn : findNotification s.notifications nid = some n)
    (ht : n.targetUsers.any (fun u => u = caller) = true) :
    (markAsRead s caller nid).1 = MarkReadResult.ok ∧
    ((findNotification (markAsRead s caller nid).2.notifications nid).map
        (fun m => m.isReadByUser caller)) = some true ∧
    markAsRead (markAsRead s caller nid).2 caller nid
      = (MarkReadResult.ok, (markAsRead s caller nid).2) := by
  have hid : n.id = nid := by
    have hp := List.find?_some hn
    simpa using hp
  have hid' : (n.markAsReadDoc caller).id = nid := hid
  have hstep : markAsRead s caller nid
      = (MarkReadResult.ok,
         { s with notifications := updateNotificationById s.notifications nid (n.markAsReadDoc caller) }) := by
    simp [markAsRead, hn, ht]
  have hfind := findNotification_update s.notifications nid n (n.markAsReadDoc caller) hn hid'
  refine ⟨by rw [hstep], ?_, ?_⟩
  · rw [hstep]
    simp [hfind, isReadByUser_after_mark]
  · rw [hstep]
    have ht2 : (n.markAsReadDoc caller).targetUsers.any (fun u => u = caller) = true := ht
    simp only [markAsRead, hfind, ht2, Bool.not_true, Bool.false_eq_true, if_false,
      markAsReadDoc_idem, updateNotificationById_idem]

/-- A store holding one notification targeting students a and b. -/
def readSt : St :=
  { users := [⟨"a", "student", []⟩, ⟨"b", "student", []⟩],
    contests := [], payments := [], blogs := [],
    notifications :=
      [⟨5, "T", "M", "adm", "specific", ["a", "b"], "info", "general", none, none, []⟩],
    nextPaymentId := 0, nextNotificationId := 6 }

/-- Witness for C8 at the concrete store. -/
theorem markAsRead_idempotent_witness :
    (markAsRead readSt "a" 5).1 = MarkReadResult.ok ∧
    ((findNotification (markAsRead readSt "a" 5).2.notifications 5).map
        (fun m => m.isReadByUser "a")) = some true ∧
    markAsRead (markAsRead readSt "a" 5).2 "a" 5
      = (MarkReadResult.ok, (markAsRead readSt "a" 5).2) :=
  markAsRead_idempotent readSt "a" 5
    ⟨5, "T", "M", "adm", "specific", ["a", "b"], "info", "general", none, none, []⟩
    (by rfl) (by decide)

/-- C9: payment verification matches the contest participant by the
calling principal, not by the payment's recorded user: with a valid
signature, an existing contest payment, and a participant entry whose
user is the caller, the payment is marked completed and the
participant entry updated is the caller's — even under the hypothesis
that the caller differs from payment.user, which no code path ever
checks. -/
theorem verifyPayment_participant_matched_by_caller
    (hmac : String → String → String) (secret : String) (s : St)
    (caller rp ro sig : String) (pid : Nat) (p : Payment) (cid : Nat)
    (c : Contest) (i : Nat)
    (hsig : hmac secret (ro ++ "|" ++ rp) = sig)
    (hp : findPayment s.payments pid = some p)
    (hpurpose : p.purpose = "contest")
    (hmodel : p.relatedModel = some "Contest")
    (hrel : p.relatedTo = some cid)
    (hc : findContest s.contests cid = some c)
    (hidx : c.participants.findIdx? (fun q => q.user = caller) = some i)
    (hown : caller ≠ p.user) :
    (verifyPayment hmac secret s caller rp ro sig pid).1
        = VerifyResult.ok p.id PayStatus.completed ∧
    (verifyPayment hmac secret s caller rp ro sig pid).2.contests
      = updateContestById s.contests c.id
          { c with participants := modifyAt c.participants i
                     (fun q => { q with paymentStatus := PartStatus.completed,
                                        paymentId := some p.id }) } := by
  simp [verifyPayment, hsig, hp, hpurpose, hmodel, hrel, hc, hidx]

/-- Store for the C9 witness: the payment belongs to "payer", the
caller is "other", and both appear in the contest's participants. -/
def crossPaySt : St :=
  { users := [⟨"payer", "student", [7]⟩, ⟨"other", "student", [7]⟩],
    contests := [⟨7, 100, 50, none, ContestStatus.upcoming,
      [⟨"payer", 1, PartStatus.pending, some 3⟩, ⟨"other", 2, PartStatus.pending, none⟩]⟩],
    payments := [{ id := 3, user := "payer", amount := 50, purpose := "contest",
                   relatedTo := some 7, relatedModel := some "Contest",
                   status := PayStatus.pending, razorpayPaymentId := none,
                   razorpayOrderId := none, razorpaySignature := none }],
    notifications := [], blogs := [], nextPaymentId := 4, nextNotificationId := 0 }

/-- Witness for C9: caller "other" verifies "payer"'s payment and it
is "other"'s participant entry (index 1) that gets completed. -/
theorem verifyPayment_participant_matched_by_caller_witness :
    (verifyPayment (fun k m => k ++ "#" ++ m) "sec" crossPaySt "other" "p" "o" "sec#o|p" 3).1
        = VerifyResult.ok 3 PayStatus.completed ∧
    (verifyPayment (fun k m => k ++ "#" ++ m) "sec" crossPaySt "other" "p" "o" "sec#o|p" 3).2.contests
      = updateContestById crossPaySt.contests 7
          { (⟨7, 100, 50, none, ContestStatus.upcoming,
              [⟨"payer", 1, PartStatus.pending, some 3⟩,
               ⟨"other", 2, PartStatus.pending, none⟩]⟩ : Contest) with
              participants := modifyAt
                [⟨"payer", 1, PartStatus.pending, some 3⟩,
                 ⟨"other", 2, PartStatus.pending, none⟩] 1
                (fun q => { q with paymentStatus := PartStatus.completed,
                                   paymentId := some 3 }) } :=
  verifyPayment_participant_matched_by_caller (fun k m => k ++ "#" ++ m) "sec" crossPaySt
    "other" "p" "o" "sec#o|p" 3 _ 7 _ 1 (by rfl) (by rfl) (by rfl) (by rfl) (by rfl)
    (by rfl) (by rfl) (by decide)

end SGSU
